import Mathlib

/-!
# Verification of the `iced_plotters` canvas drawing adapter

Shallow embedding of `src/lib.rs`: the crate implements plotters'
`DrawingBackend` trait for `PlotFrame<'a>(pub &'a mut canvas::Frame)`,
forwarding each primitive draw request to the iced canvas `Frame`.

Modelling conventions:

* The mutably borrowed `canvas::Frame` is modelled as an explicit state
  value (`Frame`) recording its extents and the list of host drawing
  operations issued so far, in call order; each adapter method takes the
  frame and returns the updated frame together with its `Result`.
* Rust `Result<(), DrawingErrorKind<PlotErr>>` becomes
  `Except (DrawingErrorKind PlotErr) Unit`.
* Machine integers: `i32` values are `Int`, `u8`/`u32` values are `Nat`.
  The `i32` subtraction performed by `draw_rect` is embedded as
  two's-complement wrapping subtraction (`i32wrapSub`), Rust's
  release-mode semantics (debug builds panic on overflow instead).
* `f32`/`f64` scalars are modelled as exact rationals (`ℚ`).  The adapter
  performs no floating-point arithmetic: it only casts machine integers to
  `f32` (exact for magnitudes up to `2^24`, which covers pixel-scale
  values) and passes literal constants through, so the cast is embedded as
  the exact injection `Int → ℚ` / `Nat → ℚ`.
* iced stores colour channels as `f32` in `[0,1]`; `Color::from_rgb8`
  divides each 8-bit channel by `255`, which is injective on 8-bit
  inputs, so the embedding records the 8-bit channels directly.
-/

namespace IcedPlotters

/-! ## Host (iced canvas) side -/

/-- iced `Point` (`f32` coordinates, modelled as exact rationals). -/
structure Point where
  x : ℚ
  y : ℚ
deriving DecidableEq

/-- iced `Size` (`f32` extents, modelled as exact rationals). -/
structure Size where
  width : ℚ
  height : ℚ
deriving DecidableEq

/-- iced `Color`, as produced by `Color::from_rgb8`: three 8-bit channels
(recorded directly, see the module comment) and an alpha component. -/
structure IcedColor where
  r : Nat
  g : Nat
  b : Nat
  a : ℚ
deriving DecidableEq

/-- `Color::from_rgb8(r, g, b)`: full opacity, channels kept verbatim. -/
def Color.from_rgb8 (r g b : Nat) : IcedColor :=
  ⟨r, g, b, 1⟩

/-- iced `canvas::LineCap`. -/
inductive LineCap where
  | Butt
  | Square
  | Round
deriving DecidableEq

/-- iced `canvas::LineJoin`. -/
inductive LineJoin where
  | Miter
  | Round
  | Bevel
deriving DecidableEq

/-- iced `canvas::Stroke`. -/
structure Stroke where
  color : IcedColor
  width : ℚ
  line_cap : LineCap
  line_join : LineJoin
deriving DecidableEq

/-- iced `canvas::Path`, restricted to the three constructors the adapter
uses: `Path::rectangle(top_left, size)`, `Path::line(p1, p2)`,
`Path::circle(center, radius)`. -/
inductive Path where
  | rectangle (top_left : Point) (size : Size)
  | line (p1 p2 : Point)
  | circle (center : Point) (radius : ℚ)
deriving DecidableEq

/-- iced `Font` (the adapter never sets it, so only the default matters). -/
inductive Font where
  | Default
deriving DecidableEq

/-- iced `HorizontalAlignment`. -/
inductive HorizontalAlignment where
  | Left
  | Center
  | Right
deriving DecidableEq

/-- iced `VerticalAlignment`. -/
inductive VerticalAlignment where
  | Top
  | Center
  | Bottom
deriving DecidableEq

/-- iced `canvas::Text`. -/
structure Text where
  content : String
  position : Point
  color : IcedColor
  size : ℚ
  font : Font
  horizontal_alignment : HorizontalAlignment
  vertical_alignment : VerticalAlignment
deriving DecidableEq

/-- `canvas::Text::default()`: empty content at the origin, black, size 16,
default font, left/top alignment. -/
def Text.default : Text :=
  ⟨"", ⟨0, 0⟩, ⟨0, 0, 0, 1⟩, 16, Font.Default,
    HorizontalAlignment.Left, VerticalAlignment.Top⟩

/-- One host drawing operation received by the iced `Frame`. -/
inductive HostOp where
  | fill (path : Path) (color : IcedColor)
  | stroke (path : Path) (s : Stroke)
  | fill_text (t : Text)
deriving DecidableEq

/-- The iced `canvas::Frame`: its `f32` extents plus the trace of host
operations issued against it, in call order. -/
structure Frame where
  width : ℚ
  height : ℚ
  ops : List HostOp
deriving DecidableEq

/-- `Frame::fill(&path, color)`: record a fill. -/
def Frame.fill (f : Frame) (p : Path) (c : IcedColor) : Frame :=
  { f with ops := f.ops ++ [HostOp.fill p c] }

/-- `Frame::stroke(&path, stroke)`: record a stroke. -/
def Frame.stroke (f : Frame) (p : Path) (s : Stroke) : Frame :=
  { f with ops := f.ops ++ [HostOp.stroke p s] }

/-- `Frame::fill_text(text)`: record a text fill. -/
def Frame.fill_text (f : Frame) (t : Text) : Frame :=
  { f with ops := f.ops ++ [HostOp.fill_text t] }

/-! ## Charting-library (plotters) side -/

/-- plotters `BackendCoord = (i32, i32)`. -/
abbrev BackendCoord := Int × Int

/-- plotters `RGBAColor`: three 8-bit channels and an alpha component. -/
structure RGBAColor where
  r : Nat
  g : Nat
  b : Nat
  a : ℚ
deriving DecidableEq

/-- `RGBAColor::rgb()`: the `(r, g, b)` triple, dropping alpha. -/
def RGBAColor.rgb (c : RGBAColor) : Nat × Nat × Nat :=
  (c.r, c.g, c.b)

/-- plotters `BackendStyle`, modelled by its two accessors used in the
adapter: `as_color()` and `stroke_width()` (a `u32`). -/
structure BackendStyle where
  as_color : RGBAColor
  stroke_width : Nat
deriving DecidableEq

/-- plotters `FontDesc`, modelled by the one accessor used: `get_size()`
(an `f64`, carried as an exact rational). -/
structure FontDesc where
  size : ℚ
deriving DecidableEq

/-- `FontDesc::get_size()`. -/
def FontDesc.get_size (fd : FontDesc) : ℚ :=
  fd.size

/-- plotters `TextStyle`: a font descriptor and a colour. -/
structure TextStyle where
  font : FontDesc
  color : RGBAColor
deriving DecidableEq

/-- The crate's error type `PlotErr`: declared with zero variants. -/
inductive PlotErr
deriving DecidableEq

/-- plotters `DrawingErrorKind<E>` (the font-error payload, a boxed
`std` error in the source, is abstracted to its message string). -/
inductive DrawingErrorKind (E : Type) where
  | DrawingError (e : E)
  | FontError (msg : String)
deriving DecidableEq

/-- The result type of every fallible adapter method. -/
abbrev DrawResult := Except (DrawingErrorKind PlotErr) Unit

/-! ## Numeric casts -/

/-- Rust `x as f32` on an `i32`: modelled as the exact injection into `ℚ`
(exact for magnitudes up to `2^24`; the adapter does no further float
arithmetic, see the module comment). -/
def i32_as_f32 (x : Int) : ℚ :=
  (x : ℚ)

/-- Rust `x as f32` on a `u32`: modelled as the exact injection into `ℚ`. -/
def u32_as_f32 (n : Nat) : ℚ :=
  (n : ℚ)

/-- Rust `q as u32` on an `f32`: truncation toward zero, saturating at the
`u32` bounds (negative inputs map to `0`). -/
def f32_as_u32 (q : ℚ) : Nat :=
  if q < 0 then 0 else min (Rat.floor q).toNat (2 ^ 32 - 1)

/-- Two's-complement `i32` wrapping subtraction: the value Rust's
release-mode `a - b` produces on `i32` operands (debug builds panic when
the mathematical difference leaves the `i32` range). -/
def i32wrapSub (a b : Int) : Int :=
  (a - b + 2 ^ 31) % 2 ^ 32 - 2 ^ 31

/-! ## The adapter: `impl DrawingBackend for PlotFrame<'_>`

The Rust `PlotFrame<'a>(pub &'a mut canvas::Frame)` wrapper is a mutable
borrow of the frame; each method below takes the frame state explicitly
and returns the updated frame with the method's `Result`. -/

namespace PlotFrame

/-- `get_size`: `(self.0.height() as u32, self.0.width() as u32)`. -/
def get_size (f : Frame) : Nat × Nat :=
  (f32_as_u32 f.height, f32_as_u32 f.width)

/-- `ensure_prepared`: `Ok(())`. -/
def ensure_prepared (f : Frame) : Frame × DrawResult :=
  (f, Except.ok ())

/-- `present`: `Ok(())`. -/
def present (f : Frame) : Frame × DrawResult :=
  (f, Except.ok ())

/-- `draw_pixel(point, color)`: fill a `0.6 × 0.6` rectangle whose corner
is at `point`, with the colour's `(r, g, b)` via `Color::from_rgb8`. -/
def draw_pixel (f : Frame) (point : BackendCoord) (color : RGBAColor) :
    Frame × DrawResult :=
  let p := Path.rectangle ⟨i32_as_f32 point.1, i32_as_f32 point.2⟩
    ⟨(0.6 : ℚ), (0.6 : ℚ)⟩
  let rgb := color.rgb
  (f.fill p (Color.from_rgb8 rgb.1 rgb.2.1 rgb.2.2), Except.ok ())

/-- `draw_line(from, to, style)`: stroke a line path with the style's
colour and width, butt cap and miter join. -/
def draw_line (f : Frame) (fromP toP : BackendCoord) (style : BackendStyle) :
    Frame × DrawResult :=
  let p := Path.line ⟨i32_as_f32 fromP.1, i32_as_f32 fromP.2⟩
    ⟨i32_as_f32 toP.1, i32_as_f32 toP.2⟩
  let rgb := style.as_color.rgb
  let stroke : Stroke :=
    ⟨Color.from_rgb8 rgb.1 rgb.2.1 rgb.2.2, u32_as_f32 style.stroke_width,
      LineCap.Butt, LineJoin.Miter⟩
  (f.stroke p stroke, Except.ok ())

/-- `draw_rect(upper_left, bottom_right, style, fill)`: a rectangle path at
origin `bottom_right` with size `(upper_left - bottom_right)` componentwise
(`i32` subtraction, hence wrapping), filled or stroked. -/
def draw_rect (f : Frame) (upper_left bottom_right : BackendCoord)
    (style : BackendStyle) (fill : Bool) : Frame × DrawResult :=
  let p := Path.rectangle
    ⟨i32_as_f32 bottom_right.1, i32_as_f32 bottom_right.2⟩
    ⟨i32_as_f32 (i32wrapSub upper_left.1 bottom_right.1),
      i32_as_f32 (i32wrapSub upper_left.2 bottom_right.2)⟩
  let rgb := style.as_color.rgb
  let color := Color.from_rgb8 rgb.1 rgb.2.1 rgb.2.2
  if fill then
    (f.fill p color, Except.ok ())
  else
    (f.stroke p
      ⟨color, u32_as_f32 style.stroke_width, LineCap.Butt, LineJoin.Miter⟩,
      Except.ok ())

/-- `draw_circle(center, radius, style, fill)`: a circle path at `center`
with the given radius, filled or stroked. -/
def draw_circle (f : Frame) (center : BackendCoord) (radius : Nat)
    (style : BackendStyle) (fill : Bool) : Frame × DrawResult :=
  let p := Path.circle ⟨i32_as_f32 center.1, i32_as_f32 center.2⟩
    (u32_as_f32 radius)
  let rgb := style.as_color.rgb
  let color := Color.from_rgb8 rgb.1 rgb.2.1 rgb.2.2
  if fill then
    (f.fill p color, Except.ok ())
  else
    (f.stroke p
      ⟨color, u32_as_f32 style.stroke_width, LineCap.Butt, LineJoin.Miter⟩,
      Except.ok ())

/-- `draw_text(text, style, pos)`: fill a `Text` with the given content,
the style's font size and colour, position `pos`, and `Text::default()`
for every other field. -/
def draw_text (f : Frame) (text : String) (style : TextStyle)
    (pos : BackendCoord) : Frame × DrawResult :=
  let rgb := style.color.rgb
  (f.fill_text
    { Text.default with
        content := text
        size := style.font.get_size
        position := ⟨i32_as_f32 pos.1, i32_as_f32 pos.2⟩
        color := Color.from_rgb8 rgb.1 rgb.2.1 rgb.2.2 },
    Except.ok ())

end PlotFrame

/-! ## Observation helpers -/

/-- The host operations a single adapter call appended to the frame. -/
def emitted (f : Frame) (res : Frame × DrawResult) : List HostOp :=
  res.1.ops.drop f.ops.length

/-- The colour carried by a host operation. -/
def HostOp.opColor : HostOp → IcedColor
  | HostOp.fill _ c => c
  | HostOp.stroke _ s => s.color
  | HostOp.fill_text t => t.color

/-- The stroke width of a host operation, when it is a stroke. -/
def HostOp.strokeWidth? : HostOp → Option ℚ
  | HostOp.stroke _ s => some s.width
  | _ => none

/-- The line cap of a host operation, when it is a stroke. -/
def HostOp.lineCap? : HostOp → Option LineCap
  | HostOp.stroke _ s => some s.line_cap
  | _ => none

/-- The line join of a host operation, when it is a stroke. -/
def HostOp.lineJoin? : HostOp → Option LineJoin
  | HostOp.stroke _ s => some s.line_join
  | _ => none

/-- The size of the rectangle path a host operation draws, when it draws
a rectangle path. -/
def HostOp.rectSize? : HostOp → Option Size
  | HostOp.fill (Path.rectangle _ sz) _ => some sz
  | HostOp.stroke (Path.rectangle _ sz) _ => some sz
  | _ => none

/-- A sample frame used for concrete scenarios. -/
def frame0 : Frame :=
  ⟨100, 100, []⟩

/-- A sample style used for concrete scenarios. -/
def style0 : BackendStyle :=
  ⟨⟨0, 0, 0, 1⟩, 1⟩

/-- The "red, width 2" style of the circle scenario (plotters `RED` is
`(255, 0, 0)` at full alpha). -/
def redStyle : BackendStyle :=
  ⟨⟨255, 0, 0, 1⟩, 2⟩

/-! ## Helper lemmas -/

/-- Wrapping `i32` subtraction agrees with mathematical subtraction exactly
when the difference lies in the `i32` range. -/
theorem i32wrapSub_eq_sub (a b : Int) (h1 : -(2 ^ 31) ≤ a - b)
    (h2 : a - b < 2 ^ 31) : i32wrapSub a b = a - b := by
  have hp : ((2 : Int) ^ 31) = 2147483648 := by norm_num
  have hq : ((2 : Int) ^ 32) = 4294967296 := by norm_num
  unfold i32wrapSub
  rw [hp, hq] at *
  rw [Int.emod_eq_of_lt (by omega) (by omega)]
  omega

/-! ## Claims -/

/-- C2: `get_size` returns the surface extents as unsigned 32-bit values in
the order `(height, width)` — the swap of the conventional
`(width, height)` pair. -/
theorem C2_get_size_order (f : Frame) :
    PlotFrame.get_size f = (f32_as_u32 f.height, f32_as_u32 f.width) ∧
    PlotFrame.get_size f = Prod.swap (f32_as_u32 f.width, f32_as_u32 f.height) :=
  ⟨rfl, rfl⟩

/-- C3: `PlotErr` is uninhabited, and all seven adapter operations return
`Ok(())` on every input: no code path produces an error. -/
theorem C3_infallible :
    (PlotErr → False) ∧
    (∀ f, (PlotFrame.ensure_prepared f).2 = Except.ok ()) ∧
    (∀ f, (PlotFrame.present f).2 = Except.ok ()) ∧
    (∀ f pt c, (PlotFrame.draw_pixel f pt c).2 = Except.ok ()) ∧
    (∀ f a b s, (PlotFrame.draw_line f a b s).2 = Except.ok ()) ∧
    (∀ f ul br s fl, (PlotFrame.draw_rect f ul br s fl).2 = Except.ok ()) ∧
    (∀ f c r s fl, (PlotFrame.draw_circle f c r s fl).2 = Except.ok ()) ∧
    (∀ f t s p, (PlotFrame.draw_text f t s p).2 = Except.ok ()) := by
  exact ⟨(fun e => nomatch e), fun f => rfl, fun f => rfl, fun f pt c => rfl,
    fun f a b s => rfl,
    fun f ul br s fl => by cases fl <;> rfl,
    fun f c r s fl => by cases fl <;> rfl,
    fun f t s p => rfl⟩

/-- C8: `ensure_prepared` and `present` succeed on every frame state and
leave the frame untouched (no host drawing operation is issued). -/
theorem C8_prepare_present_noop (f : Frame) :
    PlotFrame.ensure_prepared f = (f, Except.ok ()) ∧
    PlotFrame.present f = (f, Except.ok ()) :=
  ⟨rfl, rfl⟩

/-- C10: `draw_rect` computes the rectangle size by `i32` subtraction, so
the emitted size is the wrapped difference; the wrapped difference equals
the mathematical difference exactly when the latter fits in `i32`, and at
`upper_left.0 = i32::MAX`, `bottom_right.0 = -1` the subtraction wraps to
`-2^31` instead of the mathematical `2^31`. -/
theorem C10_rect_size_wraps :
    (∀ (f : Frame) (ul br : BackendCoord) (s : BackendStyle) (fl : Bool),
      (emitted f (PlotFrame.draw_rect f ul br s fl)).map HostOp.rectSize? =
        [some ⟨i32_as_f32 (i32wrapSub ul.1 br.1),
          i32_as_f32 (i32wrapSub ul.2 br.2)⟩]) ∧
    (∀ a b : Int, -(2 ^ 31) ≤ a - b → a - b < 2 ^ 31 →
      i32wrapSub a b = a - b) ∧
    i32wrapSub 2147483647 (-1) = -(2 ^ 31) ∧
    (2147483647 : Int) - (-1) = 2 ^ 31 := by
  refine ⟨?_, i32wrapSub_eq_sub, by decide, by decide⟩
  intro f ul br s fl
  cases fl <;>
    simp [emitted, PlotFrame.draw_rect, Frame.fill, Frame.stroke,
      HostOp.rectSize?, List.drop_left]

/-- Witness for C10 at a concrete in-range input. -/
theorem C10_witness :
    ((-(2 ^ 31) ≤ (3 : Int) - 1) ∧ ((3 : Int) - 1 < 2 ^ 31)) ∧
    i32wrapSub 3 1 = 3 - 1 :=
  ⟨⟨by decide, by decide⟩,
    C10_rect_size_wraps.2.1 3 1 (by decide) (by decide)⟩

/-- C1 fails as stated: at `upper_left = (i32::MAX, 0)`,
`bottom_right = (-1, 0)` the emitted rectangle size is `(-2^31, 0)`, not
the componentwise difference `(2^31, 0)`. -/
theorem C1_counterexample :
    (emitted frame0
        (PlotFrame.draw_rect frame0 (2147483647, 0) (-1, 0) style0 false)).map
        HostOp.rectSize? =
      [some ⟨i32_as_f32 (-(2 ^ 31)), i32_as_f32 0⟩] ∧
    i32_as_f32 (-(2 ^ 31)) ≠ i32_as_f32 ((2147483647 : Int) - (-1)) := by
  constructor
  · decide
  · decide

/-- C1 (amended): when each componentwise difference
`upper_left − bottom_right` fits in the `i32` range, `draw_rect` emits one
host rectangle path with origin `bottom_right` and size equal to the
componentwise difference, without normalizing the corners, filled when
`fill` is true and stroked otherwise, and returns `Ok(())`. -/
theorem C1_draw_rect_geometry (f : Frame) (ul br : BackendCoord)
    (s : BackendStyle) (fl : Bool)
    (h1 : -(2 ^ 31) ≤ ul.1 - br.1) (h2 : ul.1 - br.1 < 2 ^ 31)
    (h3 : -(2 ^ 31) ≤ ul.2 - br.2) (h4 : ul.2 - br.2 < 2 ^ 31) :
    (PlotFrame.draw_rect f ul br s fl).1.ops = f.ops ++
      [if fl then
          HostOp.fill
            (Path.rectangle ⟨i32_as_f32 br.1, i32_as_f32 br.2⟩
              ⟨((ul.1 - br.1 : Int) : ℚ), ((ul.2 - br.2 : Int) : ℚ)⟩)
            (Color.from_rgb8 s.as_color.r s.as_color.g s.as_color.b)
        else
          HostOp.stroke
            (Path.rectangle ⟨i32_as_f32 br.1, i32_as_f32 br.2⟩
              ⟨((ul.1 - br.1 : Int) : ℚ), ((ul.2 - br.2 : Int) : ℚ)⟩)
            ⟨Color.from_rgb8 s.as_color.r s.as_color.g s.as_color.b,
              u32_as_f32 s.stroke_width, LineCap.Butt, LineJoin.Miter⟩] ∧
    (PlotFrame.draw_rect f ul br s fl).2 = Except.ok () := by
  have e1 := i32wrapSub_eq_sub ul.1 br.1 h1 h2
  have e2 := i32wrapSub_eq_sub ul.2 br.2 h3 h4
  cases fl <;>
    simp [PlotFrame.draw_rect, Frame.fill, Frame.stroke, RGBAColor.rgb,
      e1, e2, i32_as_f32]

/-- Witness for C1 at the spec's scenario: `upper_left = (0,0)`,
`bottom_right = (10,10)`, `fill = false` — one rectangle path at origin
`(10,10)` with size `(-10,-10)`, stroked. -/
theorem C1_witness :
    ((-(2 ^ 31) ≤ (0 : Int) - 10 ∧ (0 : Int) - 10 < 2 ^ 31) ∧
      (-(2 ^ 31) ≤ (0 : Int) - 10 ∧ (0 : Int) - 10 < 2 ^ 31)) ∧
    ((PlotFrame.draw_rect frame0 (0, 0) (10, 10) style0 false).1.ops =
        frame0.ops ++
          [HostOp.stroke (Path.rectangle ⟨10, 10⟩ ⟨-10, -10⟩)
            ⟨Color.from_rgb8 0 0 0, 1, LineCap.Butt, LineJoin.Miter⟩] ∧
      (PlotFrame.draw_rect frame0 (0, 0) (10, 10) style0 false).2 =
        Except.ok ()) := by
  have h := C1_draw_rect_geometry frame0 (0, 0) (10, 10) style0 false
    (by decide) (by decide) (by decide) (by decide)
  refine ⟨⟨⟨by decide, by decide⟩, ⟨by decide, by decide⟩⟩, ?_, h.2⟩
  have hb : (frame0.ops ++
      [if (false : Bool) then
          HostOp.fill
            (Path.rectangle ⟨i32_as_f32 10, i32_as_f32 10⟩
              ⟨(((0 : Int) - 10 : Int) : ℚ), (((0 : Int) - 10 : Int) : ℚ)⟩)
            (Color.from_rgb8 style0.as_color.r style0.as_color.g
              style0.as_color.b)
        else
          HostOp.stroke
            (Path.rectangle ⟨i32_as_f32 10, i32_as_f32 10⟩
              ⟨(((0 : Int) - 10 : Int) : ℚ), (((0 : Int) - 10 : Int) : ℚ)⟩)
            ⟨Color.from_rgb8 style0.as_color.r style0.as_color.g
                style0.as_color.b,
              u32_as_f32 style0.stroke_width, LineCap.Butt,
              LineJoin.Miter⟩]) =
      frame0.ops ++
        [HostOp.stroke (Path.rectangle ⟨10, 10⟩ ⟨-10, -10⟩)
          ⟨Color.from_rgb8 0 0 0, 1, LineCap.Butt, LineJoin.Miter⟩] := by
    decide
  exact hb ▸ h.1

/-- C4: in every draw call the input colour's `(r, g, b)` channels reach
the host fill/stroke/text call verbatim through `Color::from_rgb8`, and
the alpha channel is dropped (results are unchanged when only alpha
varies). -/
theorem C4_color_roundtrip :
    (∀ f pt (c : RGBAColor),
      (emitted f (PlotFrame.draw_pixel f pt c)).map HostOp.opColor =
        [Color.from_rgb8 c.r c.g c.b]) ∧
    (∀ f a b (s : BackendStyle),
      (emitted f (PlotFrame.draw_line f a b s)).map HostOp.opColor =
        [Color.from_rgb8 s.as_color.r s.as_color.g s.as_color.b]) ∧
    (∀ f ul br (s : BackendStyle) (fl : Bool),
      (emitted f (PlotFrame.draw_rect f ul br s fl)).map HostOp.opColor =
        [Color.from_rgb8 s.as_color.r s.as_color.g s.as_color.b]) ∧
    (∀ f ctr r (s : BackendStyle) (fl : Bool),
      (emitted f (PlotFrame.draw_circle f ctr r s fl)).map HostOp.opColor =
        [Color.from_rgb8 s.as_color.r s.as_color.g s.as_color.b]) ∧
    (∀ f t (s : TextStyle) p,
      (emitted f (PlotFrame.draw_text f t s p)).map HostOp.opColor =
        [Color.from_rgb8 s.color.r s.color.g s.color.b]) ∧
    (∀ f pt r g b a a',
      PlotFrame.draw_pixel f pt ⟨r, g, b, a⟩ =
        PlotFrame.draw_pixel f pt ⟨r, g, b, a'⟩) ∧
    (∀ f p q r g b a a' w,
      PlotFrame.draw_line f p q ⟨⟨r, g, b, a⟩, w⟩ =
        PlotFrame.draw_line f p q ⟨⟨r, g, b, a'⟩, w⟩) ∧
    (∀ f ul br fl r g b a a' w,
      PlotFrame.draw_rect f ul br ⟨⟨r, g, b, a⟩, w⟩ fl =
        PlotFrame.draw_rect f ul br ⟨⟨r, g, b, a'⟩, w⟩ fl) ∧
    (∀ f ctr rad fl r g b a a' w,
      PlotFrame.draw_circle f ctr rad ⟨⟨r, g, b, a⟩, w⟩ fl =
        PlotFrame.draw_circle f ctr rad ⟨⟨r, g, b, a'⟩, w⟩ fl) ∧
    (∀ f t p fd r g b a a',
      PlotFrame.draw_text f t ⟨fd, ⟨r, g, b, a⟩⟩ p =
        PlotFrame.draw_text f t ⟨fd, ⟨r, g, b, a'⟩⟩ p) := by
  refine ⟨?_, ?_, ?_, ?_, ?_, ?_, ?_, ?_, ?_, ?_⟩
  · intro f pt c
    simp [emitted, PlotFrame.draw_pixel, Frame.fill, RGBAColor.rgb,
      HostOp.opColor, List.drop_left]
  · intro f a b s
    simp [emitted, PlotFrame.draw_line, Frame.stroke, RGBAColor.rgb,
      HostOp.opColor, List.drop_left]
  · intro f ul br s fl
    cases fl <;>
      simp [emitted, PlotFrame.draw_rect, Frame.fill, Frame.stroke,
        RGBAColor.rgb, HostOp.opColor, List.drop_left]
  · intro f ctr r s fl
    cases fl <;>
      simp [emitted, PlotFrame.draw_circle, Frame.fill, Frame.stroke,
        RGBAColor.rgb, HostOp.opColor, List.drop_left]
  · intro f t s p
    simp [emitted, PlotFrame.draw_text, Frame.fill_text, RGBAColor.rgb,
      HostOp.opColor, List.drop_left]
  · intro f pt r g b a a'
    rfl
  · intro f p q r g b a a' w
    rfl
  · intro f ul br fl r g b a a' w
    cases fl <;> rfl
  · intro f ctr rad fl r g b a a' w
    cases fl <;> rfl
  · intro f t p fd r g b a a'
    rfl

/-- C5: `draw_pixel` issues exactly one host fill: a rectangle path of
fixed size `0.6 × 0.6` with its corner at the given coordinate, filled
with the input colour's exact channel values. -/
theorem C5_draw_pixel (f : Frame) (pt : BackendCoord) (c : RGBAColor) :
    (PlotFrame.draw_pixel f pt c).1.ops = f.ops ++
      [HostOp.fill
        (Path.rectangle ⟨i32_as_f32 pt.1, i32_as_f32 pt.2⟩
          ⟨(0.6 : ℚ), (0.6 : ℚ)⟩)
        (Color.from_rgb8 c.r c.g c.b)] ∧
    (PlotFrame.draw_pixel f pt c).2 = Except.ok () :=
  ⟨rfl, rfl⟩

/-- C6: every `draw_line` stroke and every `draw_rect`/`draw_circle`
stroke with `fill = false` carries the style's stroke width converted
unscaled to the host numeric type, butt cap and miter join, regardless of
the input style. -/
theorem C6_stroke_attributes :
    (∀ f a b (s : BackendStyle),
      (emitted f (PlotFrame.draw_line f a b s)).map HostOp.strokeWidth? =
          [some (u32_as_f32 s.stroke_width)] ∧
      (emitted f (PlotFrame.draw_line f a b s)).map HostOp.lineCap? =
          [some LineCap.Butt] ∧
      (emitted f (PlotFrame.draw_line f a b s)).map HostOp.lineJoin? =
          [some LineJoin.Miter]) ∧
    (∀ f ul br (s : BackendStyle),
      (emitted f (PlotFrame.draw_rect f ul br s false)).map
          HostOp.strokeWidth? = [some (u32_as_f32 s.stroke_width)] ∧
      (emitted f (PlotFrame.draw_rect f ul br s false)).map HostOp.lineCap? =
          [some LineCap.Butt] ∧
      (emitted f (PlotFrame.draw_rect f ul br s false)).map HostOp.lineJoin? =
          [some LineJoin.Miter]) ∧
    (∀ f ctr r (s : BackendStyle),
      (emitted f (PlotFrame.draw_circle f ctr r s false)).map
          HostOp.strokeWidth? = [some (u32_as_f32 s.stroke_width)] ∧
      (emitted f (PlotFrame.draw_circle f ctr r s false)).map
          HostOp.lineCap? = [some LineCap.Butt] ∧
      (emitted f (PlotFrame.draw_circle f ctr r s false)).map
          HostOp.lineJoin? = [some LineJoin.Miter]) := by
  refine ⟨?_, ?_, ?_⟩
  · intro f a b s
    refine ⟨?_, ?_, ?_⟩ <;>
      simp [emitted, PlotFrame.draw_line, Frame.stroke, HostOp.strokeWidth?,
        HostOp.lineCap?, HostOp.lineJoin?, List.drop_left]
  · intro f ul br s
    refine ⟨?_, ?_, ?_⟩ <;>
      simp [emitted, PlotFrame.draw_rect, Frame.stroke, HostOp.strokeWidth?,
        HostOp.lineCap?, HostOp.lineJoin?, List.drop_left]
  · intro f ctr r s
    refine ⟨?_, ?_, ?_⟩ <;>
      simp [emitted, PlotFrame.draw_circle, Frame.stroke, HostOp.strokeWidth?,
        HostOp.lineCap?, HostOp.lineJoin?, List.drop_left]

/-- C7: `draw_circle` emits one host circle path centred at the given
centre with the given radius, filled with the style's colour when `fill`
is true and stroked otherwise; at `center = (10,10)`, `radius = 5`,
`fill = true`, red style, the host receives one filled circle at `(10,10)`
with radius `5` and fill colour red. -/
theorem C7_draw_circle (f : Frame) (ctr : BackendCoord) (radius : Nat)
    (s : BackendStyle) :
    ((PlotFrame.draw_circle f ctr radius s true).1.ops = f.ops ++
        [HostOp.fill
          (Path.circle ⟨i32_as_f32 ctr.1, i32_as_f32 ctr.2⟩
            (u32_as_f32 radius))
          (Color.from_rgb8 s.as_color.r s.as_color.g s.as_color.b)] ∧
      (PlotFrame.draw_circle f ctr radius s true).2 = Except.ok ()) ∧
    ((PlotFrame.draw_circle f ctr radius s false).1.ops = f.ops ++
        [HostOp.stroke
          (Path.circle ⟨i32_as_f32 ctr.1, i32_as_f32 ctr.2⟩
            (u32_as_f32 radius))
          ⟨Color.from_rgb8 s.as_color.r s.as_color.g s.as_color.b,
            u32_as_f32 s.stroke_width, LineCap.Butt, LineJoin.Miter⟩] ∧
      (PlotFrame.draw_circle f ctr radius s false).2 = Except.ok ()) ∧
    emitted frame0 (PlotFrame.draw_circle frame0 (10, 10) 5 redStyle true) =
      [HostOp.fill (Path.circle ⟨10, 10⟩ 5) (Color.from_rgb8 255 0 0)] :=
  ⟨⟨rfl, rfl⟩, ⟨rfl, rfl⟩, by decide⟩

/-- C9: `draw_text` issues one host text fill whose content, position,
size and colour come from the arguments, and whose remaining attributes
(font, horizontal and vertical alignment) are `Text::default()`'s. -/
theorem C9_draw_text (f : Frame) (text : String) (style : TextStyle)
    (pos : BackendCoord) :
    (PlotFrame.draw_text f text style pos).1.ops = f.ops ++
      [HostOp.fill_text
        { content := text
          position := ⟨i32_as_f32 pos.1, i32_as_f32 pos.2⟩
          color := Color.from_rgb8 style.color.r style.color.g style.color.b
          size := style.font.get_size
          font := Text.default.font
          horizontal_alignment := Text.default.horizontal_alignment
          vertical_alignment := Text.default.vertical_alignment }] ∧
    (PlotFrame.draw_text f text style pos).2 = Except.ok () :=
  ⟨rfl, rfl⟩

end IcedPlotters
